import Mathlib

/-!
# Verification of the OpenCode OpenAI multi-account switcher plugin

Shallow embedding of the plugin's profile-vault, selector, credential-adapter
and dispatcher logic, together with theorems settling the frozen claims.

The repository ships three near-identical revisions of the same plugin:
* `src/unnamed/part_001` — the newest, strict revision (verbs `list`, `save`,
  `load`, `del`; save rejects name collisions; toast-only reporting).  Its
  definitions are embedded at top level with the source's names.
* `src/plugins/openai-multi.ts` — the oldest revision (menu/`use`/`remove`
  verbs, chat-output reporting, save overwrites).  Its points of divergence
  are embedded in namespace `Rev0`.
* `src/unnamed/part_002` — the middle revision (debug toast before the
  command guard, fallthrough activation).  Its points of divergence are
  embedded in namespace `Rev1`.

File I/O is modelled by passing the file contents explicitly: a vault or auth
file is `Option JsValue` (`none` = the file is absent), and the dispatcher's
effects (toasts shown, output parts assigned, storage written, live credential
written) are recorded in a `HookResult`.
-/

/-- A JavaScript/JSON value, as the plugin manipulates the parsed contents of
its two JSON files.  Numbers are modelled as rationals (every JSON numeral
denotes a rational); `undefined` models the result of a missing-property
access. -/
inductive JsValue where
  | null
  | undefined
  | bool (b : Bool)
  | num (q : Rat)
  | str (s : String)
  | arr (elems : List JsValue)
  | obj (fields : List (String × JsValue))
  deriving Repr

/-- JS property access `v[k]`, total form: a missing property, or a property
of a primitive, reads as `undefined`.  (Property access on `null` throws in
JS; every use below sits inside a guard or a `try` whose outcome agrees with
reading `undefined`, as noted at each use site.) -/
def jsGetTotal (v : JsValue) (k : String) : JsValue :=
  match v with
  | .obj fields => (fields.lookup k).getD .undefined
  | _ => .undefined

/-- JS `typeof v === "object"`: true for objects, arrays and `null`. -/
def jsTypeofIsObject : JsValue → Bool
  | .null => true
  | .arr _ => true
  | .obj _ => true
  | _ => false

/-- JS `v === null`. -/
def jsIsNull : JsValue → Bool
  | .null => true
  | _ => false

/-- JS `v !== 1` negated: the value is exactly the number 1. -/
def jsIsOne : JsValue → Bool
  | .num q => q == 1
  | _ => false

/-- The oauth token bundle stored per profile (source type
`StoredOAuthProfile["oauth"]`, identical in all three revisions). -/
structure OAuthTokens where
  refresh : String
  access : String
  expires : Int
  enterpriseUrl : Option String := none
  accountId : Option String := none
  deriving Repr, DecidableEq

/-- A named stored profile (source type `StoredOAuthProfile`). -/
structure StoredOAuthProfile where
  name : String
  oauth : OAuthTokens
  savedAt : String
  deriving Repr, DecidableEq

/-- The vault file's typed contents (source type `StorageFile`).  The
`profiles` record is modelled as an association list in object-insertion
order, as `Object.keys` enumerates it. -/
structure StorageFile where
  version : Nat := 1
  profiles : List (String × StoredOAuthProfile)
  deriving Repr, DecidableEq

/-- JS truthiness of an optional string: `undefined` and `""` are falsy. -/
def truthyStr : Option String → Bool
  | none => false
  | some s => !(s == "")

/-- `trim` on a character list: drop whitespace from both ends. -/
def trimChars (cs : List Char) : List Char :=
  ((cs.dropWhile (fun c => c.isWhitespace)).reverse.dropWhile (fun c => c.isWhitespace)).reverse

/-- Whitespace-separated tokens of a character list (fuel-recursive; each
step consumes at least one character). -/
def tokenizeAux : Nat → List Char → List String
  | 0, _ => []
  | fuel + 1, cs =>
    match cs.dropWhile (fun c => c.isWhitespace) with
    | [] => []
    | rest =>
      String.mk (rest.takeWhile (fun c => !c.isWhitespace))
        :: tokenizeAux fuel (rest.dropWhile (fun c => !c.isWhitespace))

/-- Embedded from `parseArgs` (part_001 lines 96–98, identical in the other
revisions): `raw.trim().split(/\s+/).filter(Boolean)` — the whitespace-run
separated tokens of the trimmed input, empty tokens dropped. -/
def parseArgs (raw : String) : List String :=
  tokenizeAux (raw.toList.length + 1) raw.toList

/-- Embedded from the command normalization (part_001 line 224, part_002 line
268): trim, strip one leading slash, lowercase. -/
def normalizeCmd (s : String) : String :=
  let t := trimChars s.toList
  let stripped :=
    match t with
    | '/' :: rest => rest
    | other => other
  String.mk (stripped.map Char.toLower)

/-- JS `parseInt(s, 10)`: skip leading whitespace, read an optional sign and
then the longest digit prefix; `none` models `NaN` (no digits found). -/
def jsParseInt (s : String) : Option Int :=
  let cs := s.toList.dropWhile (fun c => c.isWhitespace)
  let signAndRest : Int × List Char :=
    match cs with
    | '+' :: rest => (1, rest)
    | '-' :: rest => (-1, rest)
    | rest => (1, rest)
  let digits := signAndRest.2.takeWhile (fun c => c.isDigit)
  if digits.isEmpty then none
  else some (signAndRest.1 * (digits.foldl (fun n c => n * 10 + (c.toNat - '0'.toNat)) 0 : Nat))

/-- Character-code (lexicographic) order on character lists. -/
def charListLe : List Char → List Char → Bool
  | [], _ => true
  | _ :: _, [] => false
  | a :: as, b :: bs => if a = b then charListLe as bs else decide (a < b)

/-- Lexicographic order on strings, by character codes. -/
def strLe (a b : String) : Bool :=
  charListLe a.toList b.toList

/-- Insertion of a string into a sorted list (helper for `sortNames`). -/
def insertSorted (x : String) : List String → List String
  | [] => [x]
  | y :: ys => if strLe x y then x :: y :: ys else y :: insertSorted x ys

/-- Embedded from `Object.keys(storage.profiles).sort((a, b) =>
a.localeCompare(b))` (part_001 lines 273, 349, 381 and the same lines of the
other revisions).  `localeCompare` is modelled as the character-code order on
strings; the two agree on the names used in the concrete theorems below. -/
def sortNames (l : List String) : List String :=
  l.foldr insertSorted []

/-- Embedded from `isSameOauth` (part_001 lines 206–218 and part_002 lines
194–206; the openai-multi.ts revision, lines 182–190, is the same rule with a
required second argument): a missing live credential is never active; when
both account ids are truthy they are compared, otherwise the refresh tokens
are. -/
def isSameOauth (a : OAuthTokens) (b : Option OAuthTokens) : Bool :=
  match b with
  | none => false
  | some b =>
    if truthyStr a.accountId && truthyStr b.accountId then a.accountId == b.accountId
    else a.refresh == b.refresh

/-- The empty version-1 vault `loadStorage` returns for an absent file, as a
JSON value. -/
def emptyStorageJs : JsValue :=
  .obj [("version", .num 1), ("profiles", .obj [])]

/-- Embedded from `loadStorage` (part_001 lines 114–129, identical in the
other revisions): an absent file yields the empty version-1 vault; a present
file is rejected when its `version` is not `1` or its `profiles` is not of
JS object type or is `null`, and is returned as parsed otherwise.  (A file
whose root is `null` fails the version test here; in JS the property access
itself throws — both are failures of the same invocation.) -/
def loadStorage (file : Option JsValue) : Except String JsValue :=
  match file with
  | none => .ok emptyStorageJs
  | some parsed =>
    if !(jsIsOne (jsGetTotal parsed "version")) ||
        !(jsTypeofIsObject (jsGetTotal parsed "profiles")) ||
        jsIsNull (jsGetTotal parsed "profiles") then
      .error "Invalid storage format in STORAGE_PATH"
    else
      .ok parsed

/-- The shape condition `loadStorage` enforces on a present file, written out
as the spec states it: version tag 1 and an object-typed, non-null profile
map. -/
def storageShapeOk (v : JsValue) : Bool :=
  jsIsOne (jsGetTotal v "version") &&
    jsTypeofIsObject (jsGetTotal v "profiles") &&
    !(jsIsNull (jsGetTotal v "profiles"))

/-- Value of one base64 alphabet character. -/
def base64CharVal (c : Char) : Option Nat :=
  if 'A' ≤ c ∧ c ≤ 'Z' then some (c.toNat - 'A'.toNat)
  else if 'a' ≤ c ∧ c ≤ 'z' then some (c.toNat - 'a'.toNat + 26)
  else if '0' ≤ c ∧ c ≤ '9' then some (c.toNat - '0'.toNat + 52)
  else if c = '+' then some 62
  else if c = '/' then some 63
  else none

/-- Decode a run of base64 digit values into bytes, 4 digits to 3 bytes, with
a trailing group of 2 or 3 digits giving 1 or 2 bytes and a lone trailing
digit dropped. -/
def base64Groups : List Nat → List Nat
  | a :: b :: c :: d :: rest =>
    (a * 4 + b / 16) :: ((b % 16) * 16 + c / 4) :: ((c % 4) * 64 + d) :: base64Groups rest
  | [a, b] => [a * 4 + b / 16]
  | [a, b, c] => [a * 4 + b / 16, (b % 16) * 16 + c / 4]
  | _ => []

/-- Node's forgiving `Buffer.from(s, "base64")`: characters outside the
base64 alphabet (padding included) are skipped, and the remaining digits are
decoded; it never throws. -/
def base64DecodeForgiving (s : String) : List Nat :=
  base64Groups (s.toList.filterMap base64CharVal)

/-- The Unicode scalar `n` as a `Char`, with the replacement character for
values that are not scalar values (surrogates, out of range). -/
def charOfScalar (n : Nat) : Char :=
  if n.isValidChar then Char.ofNat n else '�'

/-- Is the byte a UTF-8 continuation byte. -/
def isUtf8Cont (b : Nat) : Bool :=
  decide (0x80 ≤ b) && decide (b < 0xC0)

/-- UTF-8 decoding with replacement-character semantics, as
`buffer.toString("utf8")` performs it: it never throws, malformed sequences
decode to U+FFFD.  The fuel argument bounds the recursion; every step
consumes at least one byte, so `length + 1` fuel decodes the whole input. -/
def utf8DecodeAux : Nat → List Nat → List Char
  | 0, _ => []
  | _, [] => []
  | fuel + 1, b :: rest =>
    if b < 0x80 then charOfScalar b :: utf8DecodeAux fuel rest
    else if 0xC2 ≤ b ∧ b ≤ 0xDF then
      match rest with
      | c :: rest2 =>
        if isUtf8Cont c then
          charOfScalar ((b - 0xC0) * 64 + (c - 0x80)) :: utf8DecodeAux fuel rest2
        else '�' :: utf8DecodeAux fuel rest
      | [] => ['�']
    else if 0xE0 ≤ b ∧ b ≤ 0xEF then
      match rest with
      | c :: d :: rest2 =>
        if isUtf8Cont c && isUtf8Cont d then
          let v := (b - 0xE0) * 4096 + (c - 0x80) * 64 + (d - 0x80)
          (if 0x800 ≤ v ∧ ¬(0xD800 ≤ v ∧ v ≤ 0xDFFF) then charOfScalar v else '�')
            :: utf8DecodeAux fuel rest2
        else '�' :: utf8DecodeAux fuel rest
      | _ => ['�']
    else if 0xF0 ≤ b ∧ b ≤ 0xF4 then
      match rest with
      | c :: d :: e :: rest2 =>
        if isUtf8Cont c && isUtf8Cont d && isUtf8Cont e then
          let v := (b - 0xF0) * 262144 + (c - 0x80) * 4096 + (d - 0x80) * 64 + (e - 0x80)
          (if 0x10000 ≤ v ∧ v ≤ 0x10FFFF then charOfScalar v else '�')
            :: utf8DecodeAux fuel rest2
        else '�' :: utf8DecodeAux fuel rest
      | _ => ['�']
    else '�' :: utf8DecodeAux fuel rest

/-- Total UTF-8 decoding of a byte list. -/
def utf8Decode (bytes : List Nat) : String :=
  String.mk (utf8DecodeAux (bytes.length + 1) bytes)

/-- Embedded from `base64UrlToUtf8` (part_001 lines 176–185, identical in
the other revisions): map the URL-safe alphabet to the standard one, pad
with `"===".slice((length + 3) % 4)`, then decode base64 and read the bytes
as UTF-8. -/
def base64UrlToUtf8 (input : String) : String :=
  let normalized :=
    String.mk (input.toList.map (fun c => if c = '-' then '+' else if c = '_' then '/' else c))
  let padded := normalized ++ String.mk (['=', '=', '='].drop ((normalized.length + 3) % 4))
  utf8Decode (base64DecodeForgiving padded)

/-- JS `s.split(sep)` for a one-character separator, on character lists:
`split` never yields an empty list, and empty segments are kept. -/
def splitOnChar (sep : Char) : List Char → List (List Char)
  | [] => [[]]
  | c :: rest =>
    let r := splitOnChar sep rest
    if c = sep then [] :: r
    else (c :: r.headD []) :: r.tail

/-- JS `access.split(".")` as a list of strings. -/
def splitDots (s : String) : List String :=
  (splitOnChar '.' s.toList).map String.mk

/-- JSON whitespace. -/
def isJsonWs (c : Char) : Bool :=
  c == ' ' || c == '\t' || c == '\n' || c == '\r'

/-- Drop leading JSON whitespace. -/
def skipJsonWs (cs : List Char) : List Char :=
  cs.dropWhile isJsonWs

/-- Value of a hexadecimal digit. -/
def hexVal (c : Char) : Option Nat :=
  if '0' ≤ c ∧ c ≤ '9' then some (c.toNat - '0'.toNat)
  else if 'a' ≤ c ∧ c ≤ 'f' then some (c.toNat - 'a'.toNat + 10)
  else if 'A' ≤ c ∧ c ≤ 'F' then some (c.toNat - 'A'.toNat + 10)
  else none

/-- Parse the body of a JSON string after its opening quote: the decoded
characters and the input after the closing quote, or `none` on a malformed
string.  A `\u` escape naming a lone surrogate becomes the replacement
character (a Lean string holds scalar values only). -/
def parseJsonStringAux : Nat → List Char → Option (List Char × List Char)
  | 0, _ => none
  | _ + 1, [] => none
  | fuel + 1, c :: rest =>
    if c = '"' then some ([], rest)
    else if c = '\\' then
      match rest with
      | [] => none
      | e :: rest2 =>
        let dec :=
          if e = '"' then some ('"', rest2)
          else if e = '\\' then some ('\\', rest2)
          else if e = '/' then some ('/', rest2)
          else if e = 'b' then some (Char.ofNat 8, rest2)
          else if e = 'f' then some (Char.ofNat 12, rest2)
          else if e = 'n' then some ('\n', rest2)
          else if e = 'r' then some ('\r', rest2)
          else if e = 't' then some ('\t', rest2)
          else if e = 'u' then
            match rest2 with
            | h1 :: h2 :: h3 :: h4 :: rest3 =>
              match hexVal h1, hexVal h2, hexVal h3, hexVal h4 with
              | some v1, some v2, some v3, some v4 =>
                some (charOfScalar (((v1 * 16 + v2) * 16 + v3) * 16 + v4), rest3)
              | _, _, _, _ => none
            | _ => none
          else none
        match dec with
        | none => none
        | some (ch, rest3) =>
          match parseJsonStringAux fuel rest3 with
          | some (cs, r) => some (ch :: cs, r)
          | none => none
    else if c.toNat < 0x20 then none
    else
      match parseJsonStringAux fuel rest with
      | some (cs, r) => some (c :: cs, r)
      | none => none

/-- Numeric value of a digit list. -/
def digitsVal (ds : List Char) : Nat :=
  ds.foldl (fun n c => n * 10 + (c.toNat - '0'.toNat)) 0

/-- Parse a JSON number at the head of the input: its rational value and the
rest of the input, or `none`. -/
def parseJsonNumber (cs : List Char) : Option (Rat × List Char) :=
  let signAndRest : Bool × List Char :=
    match cs with
    | '-' :: r => (true, r)
    | r => (false, r)
  let neg := signAndRest.1
  let cs1 := signAndRest.2
  let ids := cs1.takeWhile (fun c => c.isDigit)
  let cs2 := cs1.dropWhile (fun c => c.isDigit)
  if ids.isEmpty then none
  else if ids.length > 1 && ids.headD '0' == '0' then none
  else
    let fracAndRest : Option (List Char × List Char) :=
      match cs2 with
      | '.' :: r =>
        let f := r.takeWhile (fun c => c.isDigit)
        if f.isEmpty then none else some (f, r.dropWhile (fun c => c.isDigit))
      | _ => some ([], cs2)
    match fracAndRest with
    | none => none
    | some (fds, cs3) =>
      let expAndRest : Option (Int × List Char) :=
        match cs3 with
        | 'e' :: r | 'E' :: r =>
          let signedR : Int × List Char :=
            match r with
            | '+' :: r2 => (1, r2)
            | '-' :: r2 => (-1, r2)
            | r2 => (1, r2)
          let eds := signedR.2.takeWhile (fun c => c.isDigit)
          if eds.isEmpty then none
          else some (signedR.1 * (digitsVal eds : Nat), signedR.2.dropWhile (fun c => c.isDigit))
        | _ => some (0, cs3)
      match expAndRest with
      | none => none
      | some (e, cs4) =>
        let mantissa : Nat := digitsVal (ids ++ fds)
        let exp : Int := e - fds.length
        let mag : Rat :=
          if 0 ≤ exp then (mantissa : Rat) * (10 : Rat) ^ exp.toNat
          else (mantissa : Rat) / (10 : Rat) ^ (-exp).toNat
        some (if neg then -mag else mag, cs4)

mutual

/-- Recursive-descent parser for one JSON value at the head of the input.
The fuel bounds the recursion depth; each nesting level consumes at least
one character, so `length + 1` fuel suffices for any input. -/
def parseJsonValue : Nat → List Char → Option (JsValue × List Char)
  | 0, _ => none
  | fuel + 1, cs =>
    match skipJsonWs cs with
    | 'n' :: 'u' :: 'l' :: 'l' :: rest => some (.null, rest)
    | 't' :: 'r' :: 'u' :: 'e' :: rest => some (.bool true, rest)
    | 'f' :: 'a' :: 'l' :: 's' :: 'e' :: rest => some (.bool false, rest)
    | '"' :: rest =>
      match parseJsonStringAux (rest.length + 1) rest with
      | some (body, r) => some (.str (String.mk body), r)
      | none => none
    | '[' :: rest =>
      match skipJsonWs rest with
      | ']' :: r => some (.arr [], r)
      | rest1 =>
        match parseJsonElems fuel rest1 with
        | some (es, r) => some (.arr es, r)
        | none => none
    | '{' :: rest =>
      match skipJsonWs rest with
      | '}' :: r => some (.obj [], r)
      | rest1 =>
        match parseJsonMembers fuel rest1 with
        | some (fs, r) => some (.obj fs, r)
        | none => none
    | rest =>
      match parseJsonNumber rest with
      | some (q, r) => some (.num q, r)
      | none => none

/-- Parse the elements of a non-empty JSON array up to and including the
closing bracket. -/
def parseJsonElems : Nat → List Char → Option (List JsValue × List Char)
  | 0, _ => none
  | fuel + 1, cs =>
    match parseJsonValue fuel cs with
    | none => none
    | some (v, r) =>
      match skipJsonWs r with
      | ',' :: r2 =>
        match parseJsonElems fuel (skipJsonWs r2) with
        | some (vs, r3) => some (v :: vs, r3)
        | none => none
      | ']' :: r2 => some ([v], r2)
      | _ => none

/-- Parse the members of a non-empty JSON object up to and including the
closing brace. -/
def parseJsonMembers : Nat → List Char → Option (List (String × JsValue) × List Char)
  | 0, _ => none
  | fuel + 1, cs =>
    match skipJsonWs cs with
    | '"' :: rest =>
      match parseJsonStringAux (rest.length + 1) rest with
      | none => none
      | some (k, r) =>
        match skipJsonWs r with
        | ':' :: r2 =>
          match parseJsonValue fuel (skipJsonWs r2) with
          | none => none
          | some (v, r3) =>
            match skipJsonWs r3 with
            | ',' :: r4 =>
              match parseJsonMembers fuel r4 with
              | some (fs, r5) => some ((String.mk k, v) :: fs, r5)
              | none => none
            | '}' :: r4 => some ([(String.mk k, v)], r4)
            | _ => none
        | _ => none
    | _ => none

end

/-- `JSON.parse` as a total function: `none` models the `SyntaxError` the
plugin catches. -/
def jsonParse (s : String) : Option JsValue :=
  match parseJsonValue (s.length + 1) s.toList with
  | some (v, rest) => if (skipJsonWs rest).isEmpty then some v else none
  | none => none

/-- The well-known claim key the inspector reads
(`EMAIL_CLAIM_KEY`, part_001 line 91). -/
def emailClaimKey : String := "https://api.openai.com/profile"

/-- Embedded from `extractEmailFromAccessToken` (part_001 lines 187–204,
identical in the other revisions): split the token on `"."`; with fewer than
two parts return nothing; otherwise decode the second part, parse it as
JSON, read the well-known claim and return its `email` field when that is a
string.  The source's `try`/`catch` is the `none` branches here: a parse
failure, a claim that is not a record, or a non-string email all degrade to
no value.  (In JS a `null` claim value makes `profile?.email` short-circuit
to `undefined`; `jsGetTotal` plus the catch-all match arm reproduces that.) -/
def extractEmailFromAccessToken (access : String) : Option String :=
  let parts := splitDots access
  if parts.length < 2 then none
  else
    match jsonParse (base64UrlToUtf8 (parts.getD 1 "")) with
    | none => none
    | some payload =>
      match jsGetTotal payload emailClaimKey with
      | .obj profileFields =>
        match profileFields.lookup "email" with
        | some (.str email) => some email
        | _ => none
      | _ => none

/-- The display-identifier contract as the spec's §4.1 states it: split the
token on its structural delimiter, decode the middle segment, parse it as a
structured record and read the well-known nested claim's identifier field;
nothing on any malformation. -/
def displayIdSpec (access : String) : Option String :=
  match splitDots access with
  | _ :: payloadPart :: _ =>
    match jsonParse (base64UrlToUtf8 payloadPart) with
    | some payload =>
      match jsGetTotal payload emailClaimKey with
      | .obj profileFields =>
        match profileFields.lookup "email" with
        | some (.str email) => some email
        | _ => none
      | _ => none
    | none => none
  | _ => none

/-- Embedded from the `client.auth.set` body of the load action (part_001
lines 397–408; identical in openai-multi.ts lines 377–387 and part_002 lines
447–458): the written live-slot entry carries exactly `type`, `refresh`,
`access`, `expires`, and `enterpriseUrl` only when that field is truthy; the
`accountId` and the inspector's email are never part of it. -/
def authSetFields (oauth : OAuthTokens) : List (String × JsValue) :=
  [("type", .str "oauth"),
    ("refresh", .str oauth.refresh),
    ("access", .str oauth.access),
    ("expires", .num (oauth.expires : Rat))]
  ++ (match oauth.enterpriseUrl with
      | some u => if u == "" then [] else [("enterpriseUrl", .str u)]
      | none => [])

/-- Toast severity. -/
inductive Variant where
  | info
  | success
  | error
  deriving Repr, DecidableEq

/-- One `client.tui.showToast` call. -/
structure Toast where
  message : String
  variant : Variant
  duration : Option Nat := none
  deriving Repr, DecidableEq

/-- The observable effects of one `command.execute.before` invocation:
toasts shown in order, the final assignment to `output.parts` (`none` means
the hook returned without touching the output), the storage file written (at
most one write per invocation in every branch), and the body of the
`client.auth.set` call when one is made. -/
structure HookResult where
  toasts : List Toast
  parts : Option (List String)
  storageWritten : Option StorageFile
  authSet : Option (List (String × JsValue))
  deriving Repr

/-- The state an invocation runs against: the outcome of `loadStorage()` on
the vault file, the successfully parsed live oauth entry (`none` covers an
absent auth file, a missing provider entry and a malformed entry — the list
action ignores all three alike and the save action rejects all three alike),
and the timestamp `new Date().toISOString()` would produce. -/
structure Env where
  storage : Except String StorageFile
  auth : Option OAuthTokens
  now : String

/-- The normalized action of the part_001 dispatcher. -/
inductive OaiAction where
  | list
  | save
  | del
  | load
  | unknown
  deriving Repr, DecidableEq

/-- Embedded from the action normalization (part_001 lines 232–243): the
empty token and `list` mean list; `save`, `del` and `load` name themselves;
everything else is unknown. -/
def normalizeAction (rawSub : String) : OaiAction :=
  if rawSub == "" || rawSub == "list" then .list
  else if rawSub == "save" then .save
  else if rawSub == "del" then .del
  else if rawSub == "load" then .load
  else .unknown

/-- Embedded from the selector-resolution block of the load action (part_001
lines 386–390; the del action, lines 354–357, is the same code): `parseInt`
the token, and when the value is a positive 1-based index no larger than the
sorted name count, resolve to that name; otherwise the token itself is the
target name. -/
def resolveSelector (names : List String) (token : String) : String :=
  match jsParseInt token with
  | some n => if 0 < n ∧ n ≤ (names.length : Int) then names.getD (n - 1).toNat "" else token
  | none => token

/-- Part_001 message for a profile that is not in the vault. -/
def msgNotFound (name : String) : String :=
  "Profile '" ++ name ++ "' not found."

/-- Embedded from the tail of the load action (part_001 lines 385–395; the
del action, lines 353–361, resolves identically): resolve the token against
the sorted names, then look the resolved name up in the vault, failing when
it is absent.  Returns the resolved name with the profile. -/
def loadResolution (storage : StorageFile) (token : String) : Except String (String × StoredOAuthProfile) :=
  let names := sortNames (storage.profiles.map Prod.fst)
  let resolvedName := resolveSelector names token
  match storage.profiles.lookup resolvedName with
  | some p => .ok (resolvedName, p)
  | none => .error (msgNotFound resolvedName)

/-- Part_001 toast texts (quotes as in the source). -/
def msgNoProfiles : String :=
  "No profiles. Use '/oai save <name>' to add one."

/-- Part_001 list toast around the joined profile names. -/
def msgProfiles (listStr : String) : String :=
  "Profiles: " ++ listStr ++ ". Use '/oai load <name>'."

/-- Part_001 save usage error. -/
def msgUsageSave : String := "Usage: /oai save <name>"

/-- Part_001 missing-login error (any failure reading the live slot). -/
def msgNoActiveLogin : String := "No active OpenAI login found. Run /connect first."

/-- Part_001 empty-token error on save. -/
def msgInvalidAuth : String := "Active OpenAI auth seems invalid. Try /connect again."

/-- Part_001 name-collision error. -/
def msgNameTaken (name : String) : String :=
  "Profile '" ++ name ++ "' already exists. Use a different name."

/-- Part_001 save success toast. -/
def msgSaved (name : String) : Option String → String
  | some email => "Saved profile '" ++ name ++ "' (" ++ email ++ ")"
  | none => "Saved profile '" ++ name ++ "'"

/-- Part_001 del usage error. -/
def msgUsageDel : String := "Usage: /oai del <name>"

/-- Part_001 del success toast. -/
def msgRemoved (name : String) : String :=
  "Removed profile '" ++ name ++ "'"

/-- Part_001 load usage error. -/
def msgUsageLoad : String := "Usage: /oai load <name>"

/-- Part_001 load success toast. -/
def msgActive (name : String) : Option String → String
  | some email => "Active: " ++ name ++ " (" ++ email ++ ")"
  | none => "Active: " ++ name

/-- Part_001 unknown-verb toast text. -/
def msgUnknown : String := "Unknown command. Available: list, save, load, del"

/-- Comma-space joining, as `Array.prototype.join(", ")`. -/
def joinCommaSep : List String → String
  | [] => ""
  | [x] => x
  | x :: xs => x ++ ", " ++ joinCommaSep xs

/-- The result of the unknown-verb branch (part_001 lines 424–433): one
error toast, cleared output, no file touched. -/
def unknownVerbResult : HookResult :=
  { toasts := [⟨msgUnknown, .error, some 5000⟩], parts := some [],
    storageWritten := none, authSet := none }

/-- Embedded from the `try` body of part_001's hook (lines 245–433), one
case per normalized action.  A thrown error is the `.error` case and carries
no effect: in the source, every `throw` in each branch precedes that
branch's write, `auth.set` and toast (the catch boundary then reports it).
The save branch's `ensureActiveAuth` maps every live-slot read failure to
the one missing-login message, which `Env.auth = none` models. -/
def runAction (env : Env) (action : OaiAction) (argv : List String) : Except String HookResult :=
  match action with
  | .list =>
    match env.storage with
    | .error e => .error e
    | .ok storage =>
      let activeOauth := env.auth
      let names := sortNames (storage.profiles.map Prod.fst)
      if names.isEmpty then
        .ok { toasts := [⟨msgNoProfiles, .info, some 5000⟩], parts := some [],
              storageWritten := none, authSet := none }
      else
        let listStr := joinCommaSep (names.map (fun n =>
          match storage.profiles.lookup n with
          | some p => if isSameOauth p.oauth activeOauth then "[" ++ n ++ "]" else n
          | none => n))
        .ok { toasts := [⟨msgProfiles listStr, .info, some 8000⟩], parts := some [],
              storageWritten := none, authSet := none }
  | .save =>
    let name := argv.getD 1 ""
    if name == "" then .error msgUsageSave
    else
      match env.auth with
      | none => .error msgNoActiveLogin
      | some oauth =>
        if oauth.access == "" || oauth.refresh == "" then .error msgInvalidAuth
        else
          match env.storage with
          | .error e => .error e
          | .ok storage =>
            if (storage.profiles.lookup name).isSome then .error (msgNameTaken name)
            else
              let newStorage : StorageFile :=
                { storage with profiles := storage.profiles ++ [(name, ⟨name, oauth, env.now⟩)] }
              .ok { toasts := [⟨msgSaved name (extractEmailFromAccessToken oauth.access), .success, none⟩],
                    parts := some [], storageWritten := some newStorage, authSet := none }
  | .del =>
    let nameOrNum := argv.getD 1 ""
    if nameOrNum == "" then .error msgUsageDel
    else
      match env.storage with
      | .error e => .error e
      | .ok storage =>
        match loadResolution storage nameOrNum with
        | .error e => .error e
        | .ok (targetName, _) =>
          let newStorage : StorageFile :=
            { storage with profiles := storage.profiles.filter (fun kv => !(kv.1 == targetName)) }
          .ok { toasts := [⟨msgRemoved targetName, .success, none⟩], parts := some [],
                storageWritten := some newStorage, authSet := none }
  | .load =>
    let targetName := argv.getD 1 ""
    if targetName == "" then .error msgUsageLoad
    else
      match env.storage with
      | .error e => .error e
      | .ok storage =>
        match loadResolution storage targetName with
        | .error e => .error e
        | .ok (resolvedName, profile) =>
          .ok { toasts := [⟨msgActive resolvedName (extractEmailFromAccessToken profile.oauth.access), .success, none⟩],
                parts := some [], storageWritten := none,
                authSet := some (authSetFields profile.oauth) }
  | .unknown => .ok unknownVerbResult

/-- The catch boundary (part_001 lines 434–445): an error toast with the
thrown message, cleared output, nothing written. -/
def errorCaught (msg : String) : HookResult :=
  { toasts := [⟨"Error: " ++ msg, .error, none⟩], parts := some [],
    storageWritten := none, authSet := none }

/-- The part_001 dispatcher after argument splitting: lowercase the first
token, normalize it to an action, run the action, and convert a thrown
error through the catch boundary. -/
def handleArgv (env : Env) (argv : List String) : HookResult :=
  let rawSub := String.mk ((argv.getD 0 "").toList.map Char.toLower)
  match runAction env (normalizeAction rawSub) argv with
  | .ok r => r
  | .error msg => errorCaught msg

/-- The untouched result of an invocation the guard lets pass (the hook
returns before any read, write, toast or output assignment). -/
def noopResult : HookResult :=
  { toasts := [], parts := none, storageWritten := none, authSet := none }

/-- Embedded from part_001's `command.execute.before` hook (lines 222–446):
normalize the command, return untouched unless it is the reserved keyword
`oai`, otherwise split the arguments and dispatch. -/
def handleCommand (env : Env) (command arguments : String) : HookResult :=
  if normalizeCmd command == "oai" then handleArgv env (parseArgs arguments)
  else noopResult

/-- Parse a whole string as an optionally-signed decimal integer: `none`
unless every character after the optional sign is a digit and there is at
least one digit. -/
def strictParseInt (s : String) : Option Int :=
  match s.toList with
  | '-' :: ds =>
    if !ds.isEmpty && ds.all (fun c => c.isDigit) then some (-(digitsVal ds : Nat)) else none
  | ds =>
    if !ds.isEmpty && ds.all (fun c => c.isDigit) then some ((digitsVal ds : Nat)) else none

/-- The canonical decimal digits of a natural number (most significant
first; fuel-recursive on the number of digits). -/
def natCanonicalAux : Nat → Nat → List Char
  | 0, _ => []
  | _ + 1, 0 => []
  | fuel + 1, n => natCanonicalAux fuel (n / 10) ++ [Char.ofNat ('0'.toNat + n % 10)]

/-- JS `String(n)` for a natural number. -/
def natCanonical (n : Nat) : String :=
  if n == 0 then "0" else String.mk (natCanonicalAux (n + 1) n)

/-- JS `String(n)` for an integer. -/
def intCanonical (i : Int) : String :=
  if i < 0 then "-" ++ natCanonical i.natAbs else natCanonical i.natAbs

/-- The integral case of the JS round-trip test
`Number.isFinite(Number(s)) && String(Number(s)) === s`: the value when `s`
is exactly the canonical decimal rendering of an integer, else `none`.  This
is one component of `numericSelector`, which also covers the non-integral
canonical numerals the JS test accepts. -/
def canonicalIntOfString (s : String) : Option Int :=
  match strictParseInt s with
  | some n => if intCanonical n == s then some n else none
  | none => none

/-- Is `s` the canonical decimal rendering of a non-integral number: an
optional minus sign, a canonical integer part (`0` or no leading zero), a
dot, and a nonempty fraction whose last digit is not `0`.  `"1.5"`, `"-0.5"`
qualify; `"0.50"`, `".5"`, `"1.5e3"` do not (and fail the JS round trip
too). -/
def jsCanonicalFraction (s : String) : Bool :=
  let body :=
    match s.toList with
    | '-' :: rest => rest
    | rest => rest
  let ip := body.takeWhile (fun c => c.isDigit)
  let rest := body.dropWhile (fun c => c.isDigit)
  !ip.isEmpty
    && (ip.length == 1 || !(ip.headD '0' == '0'))
    && (match rest with
        | '.' :: f => !f.isEmpty && f.all (fun c => c.isDigit) && !(f.getLastD '0' == '0')
        | _ => false)

/-- The JS numeric-selector test
`Number.isFinite(Number(s)) && String(Number(s)) === s` as the
openai-multi.ts activate branch uses it: `none` when the token fails the
round trip (a literal profile name), `some (some n)` when it is the
canonical rendering of the integer `n` (an index), and `some none` when it
is a canonical non-integral numeral such as `"1.5"`, whose fractional index
into `names` is always `undefined`.  Two float-precision corners are out of
this syntactic model and noted rather than modelled: JS renders magnitudes
at or above 1e21 (and below 1e-6) in exponent form, and rounds numerals
beyond double precision, so such tokens fail the JS round trip while a
≥ 2^53 integer numeral passes this model's; every theorem about the
fallthrough therefore restricts itself to digit-free tokens, on which the
two semantics provably coincide. -/
def numericSelector (s : String) : Option (Option Int) :=
  match canonicalIntOfString s with
  | some n => some (some n)
  | none => if jsCanonicalFraction s then some none else none

/-- The selector rule as the spec's §4.4 states it: the token parses as a
positive integer literal equal to its own round-tripped string form. -/
def isCanonicalPositiveInt (s : String) : Bool :=
  match strictParseInt s with
  | some n => decide (0 < n) && (intCanonical n == s)
  | none => false

namespace Rev0

/-- JS `storage.profiles[name] = v` (openai-multi.ts line 311): replace the
value under an existing key in place, or append a new key. -/
def setKey (l : List (String × StoredOAuthProfile)) (k : String) (v : StoredOAuthProfile) :
    List (String × StoredOAuthProfile) :=
  if (l.lookup k).isSome then l.map (fun kv => if kv.1 == k then (k, v) else kv)
  else l ++ [(k, v)]

/-- The effects of the openai-multi.ts save branch. -/
structure SaveOutcome where
  storageWritten : StorageFile
  parts : List String
  toast : Toast
  deriving Repr

/-- The openai-multi.ts save toast text (line 322). -/
def msgSavedToast (name : String) : Option String → String
  | some email => "OpenAI profile saved: " ++ name ++ " (" ++ email ++ ")"
  | none => "OpenAI profile saved: " ++ name

/-- Embedded from the openai-multi.ts save branch (lines 303–327): assert a
non-blank name, then assign the profile under `name` unconditionally —
overwriting any existing profile with that name — persist, put a text part
into the chat output and show a success toast.  The auth read (lines
307–308) is abstracted into the `oauth` argument, the vault read (line 310)
into `storage`, and `STORAGE_PATH` into a placeholder. -/
def saveAction (storage : StorageFile) (oauth : OAuthTokens) (name : String) (now : String) :
    Except String SaveOutcome :=
  if (trimChars name.toList).isEmpty then .error "Profile name must be non-empty"
  else
    .ok { storageWritten := { storage with profiles := setKey storage.profiles name ⟨name, oauth, now⟩ },
          parts := ["Saved profile '" ++ name ++ "' to STORAGE_PATH"],
          toast := ⟨msgSavedToast name (extractEmailFromAccessToken oauth.access), .success, none⟩ }

/-- The effects of the openai-multi.ts activate fallthrough. -/
structure ActivateOutcome where
  authSet : List (String × JsValue)
  parts : List String
  toast : Toast
  deriving Repr

/-- The openai-multi.ts invalid-selection error (line 338 and 371). -/
def msgInvalidSelection (s : String) : String :=
  "Invalid selection '" ++ s ++ "'. Use: /oai"

/-- The openai-multi.ts unknown-profile error (line 375). -/
def msgUnknownProfile (n : String) : String :=
  "Unknown profile '" ++ n ++ "'. Use: /oai"

/-- The openai-multi.ts activate chat-output text (lines 390–395). -/
def msgActivatedPart (name : String) : Option String → String
  | some email => "OpenAI active: " ++ email
  | none => "Switched active OpenAI account to profile '" ++ name ++ "'"

/-- The openai-multi.ts activate toast text (lines 396–401). -/
def msgActivatedToast (name : String) : Option String → String
  | some email => "OpenAI active: " ++ email
  | none => "OpenAI active profile: " ++ name

/-- Embedded from the openai-multi.ts fallthrough activate branch (lines
357–402): any first token that matched no earlier verb branch is the
selector (after `use` the code shifts `argv` but still selects on the
unchanged `normalizedSub`); a token that round-trips as a canonical number
indexes the sorted names (an out-of-range or fractional index reads
`undefined` and fails as an invalid selection), any other token is a
literal profile name; a found profile is written to the live slot via
`client.auth.set`, reported in the chat output and as a success toast. -/
def activate (storage : StorageFile) (selector : String) : Except String ActivateOutcome :=
  if (trimChars selector.toList).isEmpty then .error "Profile name or number must be non-empty"
  else
    let names := sortNames (storage.profiles.map Prod.fst)
    let nameOpt : Option String :=
      match numericSelector selector with
      | some (some n) =>
        if 0 < n ∧ n ≤ (names.length : Int) then some (names.getD (n - 1).toNat "") else none
      | some none => none
      | none => some selector
    match nameOpt with
    | none => .error (msgInvalidSelection selector)
    | some name =>
      if name == "" then .error (msgInvalidSelection selector)
      else
        match storage.profiles.lookup name with
        | none => .error (msgUnknownProfile name)
        | some profile =>
          .ok { authSet := authSetFields profile.oauth,
                parts := [msgActivatedPart name (extractEmailFromAccessToken profile.oauth.access)],
                toast := ⟨msgActivatedToast name (extractEmailFromAccessToken profile.oauth.access), .success, none⟩ }

/-- The first-token verbs the openai-multi.ts revision recognizes before its
activate fallthrough (help/switch aliases, the hidden list/current, save,
and the delete spellings), used to state that a token outside this set still
reaches `activate`. -/
def recognizedVerbs : List String :=
  ["", "help", "switch", "list", "current", "save", "d", "rm", "remove", "use"]

end Rev0

namespace Rev1

/-- Embedded from part_002 lines 259–265: the debug toast the hook shows for
every command before the guard. -/
def debugToast (command : String) : Toast :=
  ⟨"OpenAIMultiAccountPlugin: command.execute.before called for command: " ++ command,
    .info, some 1000⟩

/-- Embedded from part_002 lines 258–271, restricted to invocations whose
normalized command is not the reserved keyword: the hook shows the debug
toast and then returns at the guard, never touching the output or a file. -/
def handleNonMatching (command : String) : HookResult :=
  { toasts := [debugToast command], parts := none, storageWritten := none, authSet := none }

end Rev1

set_option maxRecDepth 10000

/-- Concrete oauth bundle used by witnesses and counterexamples. -/
def o1 : OAuthTokens := { refresh := "r1", access := "a1", expires := 1000 }

/-- A second concrete oauth bundle, differing from `o1` in every field. -/
def o2 : OAuthTokens := { refresh := "r2", access := "a2", expires := 2000 }

/-- A stored profile named `work` holding `o1`. -/
def pWork : StoredOAuthProfile := { name := "work", oauth := o1, savedAt := "T1" }

/-- A vault holding exactly the `work` profile. -/
def stWork : StorageFile := { profiles := [("work", pWork)] }

/-- An environment with the `work` vault and a live credential `o2`. -/
def env0 : Env := { storage := .ok stWork, auth := some o2, now := "T2" }

/-- Profile `a` of the three-name vault. -/
def pA : StoredOAuthProfile := { name := "a", oauth := o1, savedAt := "T" }

/-- Profile `b` of the three-name vault. -/
def pB : StoredOAuthProfile := { name := "b", oauth := o2, savedAt := "T" }

/-- Profile `c` of the three-name vault. -/
def pC : StoredOAuthProfile := { name := "c", oauth := o1, savedAt := "T" }

/-- The vault with names `a`, `b`, `c` from the spec's ordinal example. -/
def st3 : StorageFile := { profiles := [("a", pA), ("b", pB), ("c", pC)] }

/-- A stored profile whose name `foo` collides with no verb token. -/
def pFoo : StoredOAuthProfile := { name := "foo", oauth := o1, savedAt := "T" }

/-- A vault holding exactly the `foo` profile. -/
def stFoo : StorageFile := { profiles := [("foo", pFoo)] }

/-- C3: vault load returns the empty version-1 vault, not an error, whenever
the backing file is absent; a present file fails (`CorruptError`) exactly
when its version tag is not 1 or its profiles map is not an object; in
particular a file holding version 2 with an empty profile map fails, and a
well-shaped file is returned as parsed. -/
theorem loadStorage_absent_empty_and_shape_check :
    loadStorage none = .ok emptyStorageJs
    ∧ (∀ v : JsValue, (loadStorage (some v)).isOk = storageShapeOk v)
    ∧ (loadStorage (some (.obj [("version", .num 2), ("profiles", .obj [])]))).isOk = false
    ∧ loadStorage (some (.obj [("version", .num 1), ("profiles", .obj [])])) =
        .ok (.obj [("version", .num 1), ("profiles", .obj [])]) := by
  refine ⟨rfl, ?_, by decide, rfl⟩
  intro v
  unfold loadStorage storageShapeOk
  cases h1 : jsIsOne (jsGetTotal v "version") <;>
    cases h2 : jsTypeofIsObject (jsGetTotal v "profiles") <;>
      cases h3 : jsIsNull (jsGetTotal v "profiles") <;>
        simp [h1, h2, h3, Except.isOk, Except.toBool]

/-- C5: the display-identifier extraction is a total function (it cannot
throw), it agrees everywhere with the spec's advisory-decoding contract
`displayIdSpec` (return the payload's well-known string email claim, nothing
on any malformation), and concretely: nothing for a token without the
structural delimiter, for an undecodable payload, for a payload lacking the
claim, and for a non-string email; the email for a well-formed token. -/
theorem extractEmail_never_throws_and_decodes :
    (∀ access : String, extractEmailFromAccessToken access = displayIdSpec access)
    ∧ extractEmailFromAccessToken "not-a-jwt" = none
    ∧ extractEmailFromAccessToken "x.!!!.y" = none
    ∧ extractEmailFromAccessToken "x.eyJhIjoxfQ.y" = none
    ∧ extractEmailFromAccessToken "x.eyJodHRwczovL2FwaS5vcGVuYWkuY29tL3Byb2ZpbGUiOnsiZW1haWwiOjV9fQ.y" = none
    ∧ extractEmailFromAccessToken
        "x.eyJodHRwczovL2FwaS5vcGVuYWkuY29tL3Byb2ZpbGUiOnsiZW1haWwiOiJ1c2VyQGV4YW1wbGUuY29tIn19.y" =
        some "user@example.com" := by
  refine ⟨?_, by decide, by decide, by decide, by decide, by decide⟩
  intro access
  unfold extractEmailFromAccessToken displayIdSpec
  cases h : splitDots access with
  | nil => simp
  | cons x t =>
    cases t with
    | nil => simp
    | cons y rest =>
      simp only [List.getD, List.length_cons, List.get?_eq_getElem?, List.getElem?_cons_zero,
        List.getElem?_cons_succ, Option.getD_some]
      rw [if_neg (by omega)]
      cases jsonParse (base64UrlToUtf8 y) <;> rfl

/-- C6: the active-profile rule compares account identifiers when both sides
carry a (truthy) one and otherwise compares refresh tokens; concretely, two
credentials sharing `accountId` `acct1` with different refresh tokens are
active-equal. -/
theorem isSameOauth_accountId_precedence :
    (∀ a b : OAuthTokens, truthyStr a.accountId = true → truthyStr b.accountId = true →
      (isSameOauth a (some b) = true ↔ a.accountId = b.accountId))
    ∧ (∀ a b : OAuthTokens, (truthyStr a.accountId && truthyStr b.accountId) = false →
      (isSameOauth a (some b) = true ↔ a.refresh = b.refresh))
    ∧ isSameOauth { refresh := "r1", access := "a1", expires := 1, accountId := some "acct1" }
        (some { refresh := "r2", access := "a2", expires := 2, accountId := some "acct1" }) = true := by
  refine ⟨?_, ?_, by decide⟩
  · intro a b ha hb
    simp [isSameOauth, ha, hb]
  · intro a b hab
    simp [isSameOauth, hab]

/-- C10: the active check degrades safely — an absent live credential reports
not-active rather than failing, and an empty-string account id on either side
falls back to refresh-token equality. -/
theorem isSameOauth_edge_degradation :
    (∀ a : OAuthTokens, isSameOauth a none = false)
    ∧ (∀ a b : OAuthTokens, a.accountId = some "" ∨ b.accountId = some "" →
      (isSameOauth a (some b) = true ↔ a.refresh = b.refresh)) := by
  refine ⟨fun a => rfl, ?_⟩
  intro a b h
  rcases h with h | h <;> simp [isSameOauth, truthyStr, h]

/-- An oauth bundle whose account id is present but empty. -/
def oEmptyAcct : OAuthTokens := { refresh := "r", access := "a", expires := 1, accountId := some "" }

/-- An oauth bundle with the same refresh token and a nonempty account id. -/
def oFullAcct : OAuthTokens := { refresh := "r", access := "b", expires := 2, accountId := some "x" }

/-- Witness for C6: at two concrete credentials that both carry the account
id `acct1`, the rule reduces to account-id equality. -/
theorem isSameOauth_accountId_precedence_witness :
    isSameOauth { refresh := "r1", access := "a1", expires := 1, accountId := some "acct1" }
      (some { refresh := "r2", access := "a2", expires := 2, accountId := some "acct1" }) = true ↔
      ({ refresh := "r1", access := "a1", expires := 1, accountId := some "acct1" } : OAuthTokens).accountId =
        ({ refresh := "r2", access := "a2", expires := 2, accountId := some "acct1" } : OAuthTokens).accountId :=
  isSameOauth_accountId_precedence.1 _ _ (by decide) (by decide)

/-- Witness for C10: at a concrete pair whose first account id is the empty
string, the rule reduces to refresh-token equality. -/
theorem isSameOauth_edge_degradation_witness :
    isSameOauth oEmptyAcct (some oFullAcct) = true ↔ oEmptyAcct.refresh = oFullAcct.refresh :=
  isSameOauth_edge_degradation.2 oEmptyAcct oFullAcct (Or.inl rfl)

/-- C4: activating a profile sends to the live slot exactly the fields
`type`, `refresh`, `access`, `expires` and — only when the stored value is
present (and nonempty, per JS truthiness) — `enterpriseUrl`; the `accountId`
and the inspector-derived email are never part of the written entry. -/
theorem authSet_writes_exactly_slot_fields (o : OAuthTokens) :
    (authSetFields o).lookup "refresh" = some (.str o.refresh)
    ∧ (authSetFields o).lookup "access" = some (.str o.access)
    ∧ (authSetFields o).lookup "expires" = some (.num (o.expires : Rat))
    ∧ (authSetFields o).lookup "accountId" = none
    ∧ (authSetFields o).lookup "email" = none
    ∧ ((authSetFields o).map Prod.fst = ["type", "refresh", "access", "expires"]
        ∨ (authSetFields o).map Prod.fst = ["type", "refresh", "access", "expires", "enterpriseUrl"])
    ∧ (∀ u, (authSetFields o).lookup "enterpriseUrl" = some (.str u) → o.enterpriseUrl = some u) := by
  unfold authSetFields
  cases h : o.enterpriseUrl with
  | none =>
    exact ⟨rfl, rfl, rfl, rfl, rfl, Or.inl rfl, fun u hu => by simp [List.lookup] at hu⟩
  | some u =>
    by_cases hu : u = ""
    · subst hu
      exact ⟨rfl, rfl, rfl, rfl, rfl, Or.inl rfl, fun w hw => by simp [List.lookup] at hw⟩
    · refine ⟨?_, ?_, ?_, ?_, ?_, Or.inr ?_, ?_⟩ <;>
        simp [List.lookup, hu]

/-- An oauth bundle carrying a nonempty enterprise URL and an account id. -/
def oEnt : OAuthTokens :=
  { refresh := "r", access := "a", expires := 5,
    enterpriseUrl := some "https://e.example", accountId := some "acct9" }

/-- Witness for C4 at a concrete bundle carrying both optional fields: the
account id is not written, and the enterprise URL that is written is exactly
the stored one. -/
theorem authSet_writes_exactly_slot_fields_witness :
    (authSetFields oEnt).lookup "accountId" = none
    ∧ oEnt.enterpriseUrl = some "https://e.example" :=
  ⟨(authSet_writes_exactly_slot_fields oEnt).2.2.2.1,
    (authSet_writes_exactly_slot_fields oEnt).2.2.2.2.2.2 "https://e.example" rfl⟩

/-- C7 (amended): in the part_001 revision an invocation whose normalized
command is not the reserved keyword is a complete no-op — the hook returns
the untouched result, a constant independent of the vault, the live slot and
the arguments, so nothing is shown, read or written; in the part_002
revision the hook first shows a transient debug toast for every invocation
and only then returns at the guard, still touching no output and no file. -/
theorem nonmatching_command_noop :
    (∀ (env : Env) (command arguments : String), ¬(normalizeCmd command = "oai") →
      handleCommand env command arguments = noopResult)
    ∧ (∀ command : String,
        (Rev1.handleNonMatching command).toasts = [Rev1.debugToast command]
        ∧ (Rev1.handleNonMatching command).parts = none
        ∧ (Rev1.handleNonMatching command).storageWritten = none
        ∧ (Rev1.handleNonMatching command).authSet = none) := by
  constructor
  · intro env command arguments h
    unfold handleCommand
    simp [h]
  · intro command
    exact ⟨rfl, rfl, rfl, rfl⟩

/-- Witness for C7: the command `connect` does not normalize to the keyword,
and the part_001 hook leaves everything untouched on it. -/
theorem nonmatching_command_noop_witness :
    handleCommand env0 "connect" "work" = noopResult :=
  nonmatching_command_noop.1 env0 "connect" "work" (by decide)

/-- Counterexample to C7 as stated: in the part_002 revision, the command
`connect` does not match the reserved keyword and yet the dispatcher shows a
notification (the debug toast) for it. -/
theorem nonmatching_command_shows_debug_toast :
    ¬(normalizeCmd "connect" = "oai")
    ∧ (Rev1.handleNonMatching "connect").toasts.length = 1 :=
  ⟨by decide, rfl⟩

/-- A run of digits taken from a digit-free character list is empty. -/
theorem takeWhile_isDigit_nil (l : List Char) (h : ∀ c ∈ l, c.isDigit = false) :
    l.takeWhile (fun c => c.isDigit) = [] := by
  cases l with
  | nil => rfl
  | cons b t => simp [List.takeWhile_cons, h b (List.mem_cons_self b t)]

/-- A token without any decimal digit never parses as a signed integer. -/
theorem strictParseInt_no_digits (s : String)
    (h : ∀ c ∈ s.toList, c.isDigit = false) : strictParseInt s = none := by
  unfold strictParseInt
  split
  next ds heq =>
    have hds : ∀ c ∈ ds, c.isDigit = false := fun c hc =>
      h c (heq ▸ List.mem_cons_of_mem _ hc)
    cases ds with
    | nil => simp
    | cons d t => simp [hds d (List.mem_cons_self d t)]
  next heq =>
    cases hl : s.toList with
    | nil => simp [hl]
    | cons d t =>
      have hd : d.isDigit = false := h d (hl ▸ List.mem_cons_self d t)
      simp [hl, hd]

/-- A token without any decimal digit is no canonical fraction either. -/
theorem jsCanonicalFraction_no_digits (s : String)
    (h : ∀ c ∈ s.toList, c.isDigit = false) : jsCanonicalFraction s = false := by
  unfold jsCanonicalFraction
  split
  next rest heq =>
    have hrest : ∀ c ∈ rest, c.isDigit = false := fun c hc =>
      h c (heq ▸ List.mem_cons_of_mem _ hc)
    simp [takeWhile_isDigit_nil rest hrest]
  next heq =>
    simp [takeWhile_isDigit_nil s.data h]

/-- A token without any decimal digit fails the JS numeric-selector round
trip, in the model and in JS alike (`Number` maps such a non-blank token to
`NaN` or an infinity), and is therefore a literal profile name. -/
theorem numericSelector_no_digits (s : String)
    (h : ∀ c ∈ s.toList, c.isDigit = false) : numericSelector s = none := by
  unfold numericSelector canonicalIntOfString
  rw [strictParseInt_no_digits s h]
  simp [jsCanonicalFraction_no_digits s h]

/-- C8 (amended): in the part_001 revision, an invocation of the reserved
command whose first token normalizes to no recognized verb (empty and `list`
mean list; `save`, `del`, `load` name themselves) yields exactly the
unknown-verb error toast — a non-fatal notification — with cleared output
and no read, write or live-credential mutation (the result is the constant
`unknownVerbResult`); in the openai-multi.ts revision such a token instead
falls through to activation: an unrecognized token containing no digit —
which fails the numeric-selector round trip — is looked up as a literal
profile name, and when it names a stored profile the dispatcher writes that
profile's credential to the live slot. -/
theorem unknown_verb_rejected :
    (∀ (env : Env) (argv : List String),
      normalizeAction (String.mk ((argv.getD 0 "").toList.map Char.toLower)) = .unknown →
      handleArgv env argv = unknownVerbResult)
    ∧ (∀ (storage : StorageFile) (name : String) (p : StoredOAuthProfile),
      storage.profiles.lookup name = some p →
      (∀ c ∈ name.toList, c.isDigit = false) →
      (trimChars name.toList).isEmpty = false →
      ¬(name = "") →
      Rev0.activate storage name =
        .ok { authSet := authSetFields p.oauth,
              parts := [Rev0.msgActivatedPart name (extractEmailFromAccessToken p.oauth.access)],
              toast := ⟨Rev0.msgActivatedToast name (extractEmailFromAccessToken p.oauth.access),
                        .success, none⟩ }) := by
  constructor
  · intro env argv h
    unfold handleArgv
    simp only [h]
    rfl
  · intro storage name p hlook hdig htrim hname
    unfold Rev0.activate
    rw [htrim, numericSelector_no_digits name hdig]
    simp [hlook, hname]

/-- Witness for C8: the token `frobnicate` is no verb and draws the
unknown-verb toast in part_001, while in the openai-multi.ts revision the
digit-free unrecognized token `foo` activates the stored `foo` profile. -/
theorem unknown_verb_rejected_witness :
    handleArgv env0 ["frobnicate"] = unknownVerbResult
    ∧ Rev0.activate stFoo "foo" =
        .ok { authSet := authSetFields pFoo.oauth,
              parts := [Rev0.msgActivatedPart "foo" (extractEmailFromAccessToken pFoo.oauth.access)],
              toast := ⟨Rev0.msgActivatedToast "foo" (extractEmailFromAccessToken pFoo.oauth.access),
                        .success, none⟩ } :=
  ⟨unknown_verb_rejected.1 env0 ["frobnicate"] (by decide),
    unknown_verb_rejected.2 stFoo "foo" pFoo rfl (by decide) (by decide) (by decide)⟩

/-- Counterexample to C8 as stated: `foo` is neither a recognized verb of
the strict revision nor any documented alias of the older ones, yet the
openai-multi.ts dispatcher, far from failing with an unknown-verb error,
activates the stored `foo` profile — a live-credential mutation. -/
theorem unknown_verb_rev0_activates :
    ¬("foo" ∈ (["list", "save", "load", "del", "delete"] ++ Rev0.recognizedVerbs))
    ∧ Rev0.activate stFoo "foo" =
        .ok { authSet := authSetFields o1,
              parts := ["Switched active OpenAI account to profile 'foo'"],
              toast := ⟨"OpenAI active profile: foo", .success, none⟩ } :=
  ⟨by decide, rfl⟩

/-- C2 (amended): part_001 resolves a load/del selector over the sorted
profile names as follows — when `parseInt(token, 10)` yields a value `n`
with `1 ≤ n ≤` the name count, the token resolves to the `n`-th sorted name
(so tokens with leading zeros, a sign, leading whitespace or trailing text,
such as `02` or `2x`, also act as ordinals); any other token — including a
numeral whose value is out of range — is taken literally as a name; and
resolution succeeds exactly when the resulting name is in the vault, failing
with the not-found error otherwise.  The spec's ordinal examples hold as
stated: `2` resolves to `b` of `a, b, c`, and `4` fails. -/
theorem selector_resolution_parseint :
    (∀ (names : List String) (token : String) (n : Int),
      jsParseInt token = some n → 0 < n → n ≤ (names.length : Int) →
      resolveSelector names token = names.getD (n - 1).toNat "")
    ∧ (∀ (names : List String) (token : String),
      (∀ n : Int, jsParseInt token = some n → ¬(0 < n ∧ n ≤ (names.length : Int))) →
      resolveSelector names token = token)
    ∧ (∀ (storage : StorageFile) (token : String),
      (loadResolution storage token).isOk =
        (storage.profiles.lookup
          (resolveSelector (sortNames (storage.profiles.map Prod.fst)) token)).isSome)
    ∧ loadResolution st3 "2" = .ok ("b", pB)
    ∧ (loadResolution st3 "4").isOk = false := by
  refine ⟨?_, ?_, ?_, rfl, by decide⟩
  · intro names token n h h1 h2
    unfold resolveSelector
    rw [h]
    exact if_pos ⟨h1, h2⟩
  · intro names token h
    unfold resolveSelector
    cases hj : jsParseInt token with
    | none => rfl
    | some n => exact if_neg (h n hj)
  · intro storage token
    unfold loadResolution
    cases hl : storage.profiles.lookup
        (resolveSelector (sortNames (storage.profiles.map Prod.fst)) token) <;>
      simp [hl, Except.isOk, Except.toBool]

/-- Witness for C2: on the sorted names `a, b, c` the numeric token `2`
resolves to the second name. -/
theorem selector_resolution_parseint_witness :
    resolveSelector ["a", "b", "c"] "2" = (["a", "b", "c"].getD ((2 : Int) - 1).toNat "") :=
  selector_resolution_parseint.1 ["a", "b", "c"] "2" 2 (by decide) (by decide) (by decide)

/-- Counterexample to C2 as stated: the token `02` is not a positive integer
literal equal to its own round-tripped string form, and no profile is named
`02`, so by the claim resolution must fail — yet part_001 resolves it as the
ordinal 2 and succeeds with profile `b`. -/
theorem selector_resolution_leading_zero_ordinal :
    isCanonicalPositiveInt "02" = false
    ∧ st3.profiles.lookup "02" = none
    ∧ loadResolution st3 "02" = .ok ("b", pB) :=
  ⟨by decide, by decide, rfl⟩

/-- Replacing the value under a key that is present: the lookup afterwards
yields the new value. -/
theorem lookup_map_overwrite (l : List (String × StoredOAuthProfile)) (k : String)
    (v : StoredOAuthProfile) (h : (l.lookup k).isSome = true) :
    (l.map (fun kv => if kv.1 == k then (k, v) else kv)).lookup k = some v := by
  induction l with
  | nil => simp [List.lookup] at h
  | cons kv t ih =>
    obtain ⟨a, b⟩ := kv
    cases hab : (a == k) with
    | false =>
      have hba : (k == a) = false :=
        beq_eq_false_iff_ne.mpr (Ne.symm (beq_eq_false_iff_ne.mp hab))
      rw [List.lookup_cons] at h
      simp only [hba] at h
      simp only [List.map_cons, hab, Bool.false_eq_true, if_false, List.lookup_cons, hba]
      exact ih h
    | true =>
      simp only [List.map_cons, hab, if_true, List.lookup_cons, beq_self_eq_true]

/-- Appending a binding for a key that is absent: the lookup afterwards
yields the appended value. -/
theorem lookup_append_new (l : List (String × StoredOAuthProfile)) (k : String)
    (v : StoredOAuthProfile) (h : l.lookup k = none) :
    ((l ++ [(k, v)]).lookup k) = some v := by
  induction l with
  | nil => simp [List.lookup_cons]
  | cons kv t ih =>
    obtain ⟨a, b⟩ := kv
    rw [List.lookup_cons] at h
    cases hba : (k == a) with
    | false =>
      simp only [hba] at h
      simp only [List.cons_append, List.lookup_cons, hba]
      exact ih h
    | true => simp [hba] at h

/-- JS `profiles[k] = v` (`Rev0.setKey`) always leaves `v` bound under `k`,
whether or not the key was taken before. -/
theorem lookup_setKey (l : List (String × StoredOAuthProfile)) (k : String)
    (v : StoredOAuthProfile) : (Rev0.setKey l k v).lookup k = some v := by
  unfold Rev0.setKey
  cases h : l.lookup k with
  | some p =>
    rw [if_pos (by simp [h])]
    exact lookup_map_overwrite l k v (by simp [h])
  | none =>
    rw [if_neg (by simp [h])]
    exact lookup_append_new l k v h

/-- C1 (amended): in the part_001 revision, saving under a name that already
exists fails with the name-taken error — surfaced as an error toast through
the catch boundary — and writes nothing, so the vault keeps exactly its
original binding for that name; in the openai-multi.ts and part_002
revisions, the same save instead succeeds and silently overwrites: the
persisted vault binds the name to the newly read credential. -/
theorem save_rejects_existing_name :
    (∀ (env : Env) (storage : StorageFile) (name : String) (p : StoredOAuthProfile)
        (oauth : OAuthTokens),
      env.storage = .ok storage →
      env.auth = some oauth →
      ¬(oauth.access = "") →
      ¬(oauth.refresh = "") →
      ¬(name = "") →
      storage.profiles.lookup name = some p →
      handleArgv env ["save", name] = errorCaught (msgNameTaken name)
      ∧ (handleArgv env ["save", name]).storageWritten = none)
    ∧ (∀ (storage : StorageFile) (oauth : OAuthTokens) (name now : String),
      (trimChars name.toList).isEmpty = false →
      ∃ out, Rev0.saveAction storage oauth name now = .ok out
        ∧ out.storageWritten.profiles.lookup name = some ⟨name, oauth, now⟩) := by
  constructor
  · intro env storage name p oauth hs ha hacc href hname hlook
    have main : handleArgv env ["save", name] = errorCaught (msgNameTaken name) := by
      unfold handleArgv
      have hsub : normalizeAction
          (String.mk (((["save", name] : List String).getD 0 "").toList.map Char.toLower)) =
          OaiAction.save := rfl
      simp only [hsub]
      unfold runAction
      simp [ha, hs, hlook, beq_eq_false_iff_ne.mpr hname, beq_eq_false_iff_ne.mpr hacc,
        beq_eq_false_iff_ne.mpr href]
    exact ⟨main, by rw [main]; rfl⟩
  · intro storage oauth name now htrim
    unfold Rev0.saveAction
    simp only [htrim, Bool.false_eq_true, if_false]
    exact ⟨_, rfl, lookup_setKey storage.profiles name ⟨name, oauth, now⟩⟩

/-- Witness for C1: with the `work` profile already stored and a fresh live
credential, the part_001 save of `work` reports the name-taken error and
writes nothing, while the openai-multi.ts save of the same name persists the
new binding. -/
theorem save_rejects_existing_name_witness :
    (handleArgv env0 ["save", "work"] = errorCaught (msgNameTaken "work")
      ∧ (handleArgv env0 ["save", "work"]).storageWritten = none)
    ∧ ∃ out, Rev0.saveAction stWork o2 "work" "T9" = .ok out
        ∧ out.storageWritten.profiles.lookup "work" = some ⟨"work", o2, "T9"⟩ :=
  ⟨save_rejects_existing_name.1 env0 stWork "work" pWork o2 rfl rfl (by decide) (by decide)
      (by decide) rfl,
    save_rejects_existing_name.2 stWork o2 "work" "T9" (by decide)⟩

/-- Counterexample to C1 as stated: the openai-multi.ts save branch, invoked
with the already-taken name `work`, does not fail with a name-taken error —
it succeeds, and the persisted vault carries the new credential in place of
the original one. -/
theorem save_silently_overwrites :
    Rev0.saveAction stWork o2 "work" "T2" =
      .ok { storageWritten := { profiles := [("work", { name := "work", oauth := o2, savedAt := "T2" })] },
            parts := ["Saved profile 'work' to STORAGE_PATH"],
            toast := ⟨"OpenAI profile saved: work", .success, none⟩ }
    ∧ ¬(pWork.oauth = o2) :=
  ⟨rfl, by decide⟩

/-- Every successful branch of the part_001 action runner clears the output
parts and shows exactly one toast. -/
theorem runAction_ok_shape (env : Env) (action : OaiAction) (argv : List String) (r : HookResult)
    (h : runAction env action argv = .ok r) : r.parts = some [] ∧ r.toasts.length = 1 := by
  cases action <;> unfold runAction at h <;> dsimp only at h
  all_goals repeat' split at h
  all_goals
    first
      | exact Except.noConfusion h
      | (injection h with h2; subst h2; exact ⟨rfl, rfl⟩)

/-- C9 (amended): in the part_001 revision every dispatched invocation of the
reserved command — every action, success and failure alike — leaves the
primary output cleared (`output.parts = []`) and reports through exactly one
toast notification; in the openai-multi.ts revision, results and errors are
additionally written into the primary output parts (the save branch, for
one, always emits a chat text part). -/
theorem toast_only_reporting :
    (∀ (env : Env) (argv : List String),
      (handleArgv env argv).parts = some [] ∧ (handleArgv env argv).toasts.length = 1)
    ∧ (∀ (storage : StorageFile) (oauth : OAuthTokens) (name now : String),
      (trimChars name.toList).isEmpty = false →
      ∃ out, Rev0.saveAction storage oauth name now = .ok out ∧ ¬(out.parts = [])) := by
  constructor
  · intro env argv
    have hz : handleArgv env argv =
        match runAction env
            (normalizeAction (String.mk ((argv.getD 0 "").toList.map Char.toLower))) argv with
          | .ok r => r
          | .error msg => errorCaught msg := rfl
    rw [hz]
    cases h : runAction env
        (normalizeAction (String.mk ((argv.getD 0 "").toList.map Char.toLower))) argv with
    | ok r => exact runAction_ok_shape env _ argv r h
    | error msg => exact ⟨rfl, rfl⟩
  · intro storage oauth name now htrim
    unfold Rev0.saveAction
    simp only [htrim, Bool.false_eq_true, if_false]
    exact ⟨_, rfl, by simp⟩

/-- Witness for C9: the listing of the `work` vault clears the output and
shows one toast, while the openai-multi.ts save of `x` emits a chat part. -/
theorem toast_only_reporting_witness :
    ((handleArgv env0 ["list"]).parts = some [] ∧ (handleArgv env0 ["list"]).toasts.length = 1)
    ∧ ∃ out, Rev0.saveAction stWork o2 "x" "T3" = .ok out ∧ ¬(out.parts = []) :=
  ⟨toast_only_reporting.1 env0 ["list"],
    toast_only_reporting.2 stWork o2 "x" "T3" (by decide)⟩

/-- Counterexample to C9 as stated: the openai-multi.ts save branch reports
its result in the primary output channel — the chat parts it assigns are not
empty. -/
theorem rev0_reports_in_chat_output :
    Rev0.saveAction stWork o2 "x" "T3" =
      .ok { storageWritten :=
              { profiles := [("work", pWork), ("x", { name := "x", oauth := o2, savedAt := "T3" })] },
            parts := ["Saved profile 'x' to STORAGE_PATH"],
            toast := ⟨"OpenAI profile saved: x", .success, none⟩ }
    ∧ ¬((["Saved profile 'x' to STORAGE_PATH"] : List String) = []) :=
  ⟨rfl, by decide⟩
